import Mathlib

/-!
Verification development for the `send-openputer-kit` repository.

The embedding translates, from the TypeScript source:
  * `src/tools/BalanceMonitorTool.ts` — the `_call` entry point (balance
    inspection, solvency pre-check, transfer, confirmation, re-query,
    error classification), as `mCall` below;
  * `src/unnamed/part_000` — the older variant of the same tool, as
    `legacyCall`;
  * `src/index.ts` `runAutonomousMode` — the `while(true)` driver loop,
    as `runAutonomousStep` / `loopStateAfter`;
  * `src/index.ts` `runChatMode` — the transfer branch input string, as
    `chatTransferInput`.

External ledger interactions (`connection.getBalance`,
`solanaAgent.transfer`, `connection.confirmTransaction`) are modelled by
an oracle `Env` that fixes the answer of each call site of one `_call`
invocation; the side effects actually issued are logged in order.
JavaScript numbers are modelled by exact rationals, and a thrown
JavaScript value by `JsErr` (an `Error` with a message, or any other
thrown value).
-/

/-- A Solana public key as the tool handles it: the address string that
was accepted by the `PublicKey` constructor. -/
structure PubKey where
  addr : String
deriving DecidableEq

/-- A thrown JavaScript value: either an `Error` instance carrying a
message, or any other thrown value (`error instanceof Error` is false). -/
inductive JsErr where
  | jsError (msg : String)
  | thrown (repr : String)
deriving DecidableEq

/-- One ledger interaction issued by `_call`, in the order performed. -/
inductive Effect where
  | getBalance (who : PubKey)
  | transfer (dest : PubKey) (amountSol : ℚ)
  | confirmTransaction (sig : String) (level : String)
deriving DecidableEq

/-- The oracle for one `_call` invocation: the tool's configuration
(constructor fields of `BalanceMonitorTool`) together with the answer
each external call site would produce if reached. -/
structure Env where
  defaultWallet : PubKey
  sourceWallet : PubKey
  minBalanceSol : ℚ
  topUpAmountSol : ℚ
  /-- answer of `connection.getBalance(targetWallet)` (line 38), in lamports -/
  targetBalance : Except JsErr Nat
  /-- answer of `connection.getBalance(sourceWallet)` (line 48), in lamports -/
  sourceBalance : Except JsErr Nat
  /-- answer of `solanaAgent.transfer(targetWallet, topUpAmountSol)` (line 61) -/
  transferResult : Except JsErr String
  /-- answer of `connection.confirmTransaction(signature, confirmed)` (line 67) -/
  confirmResult : Except JsErr Unit
  /-- answer of the post-transfer `connection.getBalance(targetWallet)` (line 70) -/
  newTargetBalance : Except JsErr Nat

/-- Classification of the return site of `_call` that produced the
result.  `confirmationUnknown` is the outcome kind named by the spec for
a confirmation-step failure; it is part of the taxonomy so that its
reachability can be settled. -/
inductive Outcome where
  | healthy
  | toppedUp (oldSol sourceSol newSol : ℚ)
  | insufficientFunds
  | fundsNotArrived
  | transferFailed
  | confirmationUnknown
  | invalidInput
  | queryError
deriving DecidableEq

/-- What one `_call` invocation produced: the classified outcome, the
returned status string, and the ledger interactions issued, in order. -/
structure CallResult where
  outcome : Outcome
  message : String
  effects : List Effect
deriving DecidableEq

/-! ### Base58 address parsing (`new PublicKey(input)`)

`new PublicKey(s)` first calls `bs58.decode(s)`, which throws
`Non-base58 character` when any character lies outside the base58
alphabet; when decoding succeeds, the constructor itself throws
`Invalid public key input` unless the decoded byte length is 32. -/

/-- The bitcoin base58 alphabet used by Solana addresses. -/
def base58Chars : List Char :=
  "123456789ABCDEFGHJKLMNPQRSTUVWXYZabcdefghijkmnopqrstuvwxyz".data

/-- The value of one base58 digit, `none` for a character outside the
alphabet. -/
def base58Val (c : Char) : Option Nat :=
  base58Chars.indexOf? c

/-- Accumulate the big-endian base58 value of a character list; `none`
as soon as a character is not a base58 digit. -/
def base58DecodeValAux (acc : Nat) : List Char → Option Nat
  | [] => some acc
  | c :: cs =>
    match base58Val c with
    | none => none
    | some v => base58DecodeValAux (acc * 58 + v) cs

/-- Count the leading `1` characters (each is a leading zero byte of the
decoded form). -/
def leadingOnes : List Char → Nat
  | [] => 0
  | c :: cs => if c = '1' then leadingOnes cs + 1 else 0

/-- Number of base-256 digits of `n`, fuelled to stay structurally
recursive; a value decoded from `fuel` base58 digits fits in `fuel`
bytes, so the fuel never runs out on a decoded value. -/
def byteLenAux : Nat → Nat → Nat
  | _, 0 => 0
  | 0, _ => 0
  | fuel + 1, n => byteLenAux fuel (n / 256) + 1

/-- The byte length that `bs58.decode` yields on this string, `none` if
the string is not base58 (decoding throws before a length exists). -/
def base58DecodedLen (s : String) : Option Nat :=
  match base58DecodeValAux 0 s.data with
  | none => none
  | some n => some (leadingOnes s.data + byteLenAux s.data.length n)

/-- `new PublicKey(s)` for a string argument: `bs58.decode` throws
`Non-base58 character` on any character outside the alphabet; a string
that decodes to a byte length other than 32 makes the constructor throw
`Invalid public key input`; otherwise the key is accepted. -/
def parsePublicKeyE (s : String) : Except JsErr PubKey :=
  match base58DecodedLen s with
  | none => Except.error (JsErr.jsError "Non-base58 character")
  | some len =>
    if len = 32 then Except.ok ⟨s⟩
    else Except.error (JsErr.jsError "Invalid public key input")

/-! ### Number formatting -/

/-- Left-pad a digit string with zeros to width `d`. -/
def padZeros (d : Nat) (s : String) : String :=
  if s.length < d then String.mk (List.replicate (d - s.length) '0') ++ s else s

/-- JavaScript `x.toFixed(d)` for the non-negative exact values this
program produces: round half up to `d` decimals and render with exactly
`d` fractional digits. -/
def qToFixed (q : ℚ) (d : Nat) : String :=
  let n : Nat := (q * (10 : ℚ) ^ d + 1 / 2).floor.toNat
  toString (n / 10 ^ d) ++ "." ++ padZeros d (toString (n % 10 ^ d))

/-- JavaScript default number-to-string for the non-negative exact
decimal fractions this program interpolates raw (for example
`0.001` or `0.200005`): the shortest exact decimal form. -/
def qRepr (q : ℚ) : String :=
  match (List.range 21).find? (fun k => (q * (10 : ℚ) ^ k).den == 1) with
  | some 0 => toString (q * 1).num
  | some k =>
    let n : Nat := (q * (10 : ℚ) ^ k).num.toNat
    toString (n / 10 ^ k) ++ "." ++ padZeros k (toString (n % 10 ^ k))
  | none => toString q.num ++ "/" ++ toString q.den

/-- JavaScript `hay.includes(needle)` as a proposition. -/
def strContains (hay needle : String) : Prop :=
  needle.data <:+: hay.data

instance (hay needle : String) : Decidable (strContains hay needle) :=
  List.decidableInfix needle.data hay.data

/-- JavaScript `toLowerCase` on one character, for the ASCII error
messages this program matches on. -/
def jsToLower (c : Char) : Char :=
  if 'A' ≤ c ∧ c ≤ 'Z' then Char.ofNat (c.toNat + 32) else c

/-- JavaScript `s.toLowerCase()` for the ASCII error messages this
program matches on. -/
def strToLower (s : String) : String :=
  String.mk (s.data.map jsToLower)

/-! ### The `_call` entry point of `BalanceMonitorTool` (src/tools/BalanceMonitorTool.ts) -/

/-- `LAMPORTS_PER_SOL` from `@solana/web3.js`. -/
def LAMPORTS_PER_SOL : ℚ := 1000000000

/-- The fixed fee reserve `0.000005` SOL added to the top-up amount when
checking the funding account solvency (line 52). -/
def feeReserveSol : ℚ := 0.000005

/-- Lines 34-36: an empty input or the sentinel `check` resolves to the
default wallet; any other input goes through `new PublicKey(input)`,
whose failure throws either `Non-base58 character` (from `bs58.decode`)
or `Invalid public key input` (wrong decoded length). -/
def resolveTarget (env : Env) (input : String) : Except JsErr PubKey :=
  if input ≠ "" ∧ input ≠ "check" then
    parsePublicKeyE input
  else
    Except.ok env.defaultWallet

/-- Lines 74-85, the inner `catch`: classify the error thrown anywhere in
the top-up block by substring matching on the lowercased message;
non-`Error` thrown values get the generic transfer-failed message. -/
def innerCatch (balanceMessage : String) (topUpAmountSol : ℚ) (e : JsErr) :
    Outcome × String :=
  match e with
  | JsErr.jsError msg =>
    let errorMsg := strToLower msg
    if strContains errorMsg "insufficient lamports" ∨ strContains errorMsg "0x1" then
      (Outcome.insufficientFunds,
        balanceMessage ++ "\n\nOops! I don\x27t have quite enough SOL for the transfer and fees. Please send a bit more SOL (" ++ qRepr (topUpAmountSol + feeReserveSol) ++ " SOL total) to cover the transaction fees.")
    else if strContains errorMsg "attempt to debit" then
      (Outcome.fundsNotArrived,
        balanceMessage ++ "\n\nHmm, it seems the funds haven\x27t arrived yet. Are you sure you sent the SOL? Please verify and let me know by saying \"check balance\" again.")
    else
      (Outcome.transferFailed,
        balanceMessage ++ "\nTransfer failed: " ++ msg ++ ". Please try again in a moment.")
  | JsErr.thrown _ =>
    (Outcome.transferFailed,
      balanceMessage ++ "\nTransfer failed. Please try again in a moment.")

/-- Line 55: the message returned when the funding account fails the
solvency pre-check. -/
def needSolMsg (requiredAmount : ℚ) (sourceWallet : PubKey) : String :=
  "\n\nI need some SOL to keep operating! 🙏\nPlease send at least " ++ qToFixed requiredAmount 6 ++ " SOL to my address:\n" ++ sourceWallet.addr ++ "\n\nThis amount includes transaction fees. Once you\x27ve sent the SOL, let me know by saying \"check balance\" and I\x27ll verify the funds and proceed with the top-up."

/-- Lines 45-86: the low-balance top-up block (`try { ... } catch ...`),
entered with the already-formatted `balanceMessage` of line 42.  Returns
the produced outcome, message and the ledger calls issued inside the
block, in order. -/
def topUpProtocol (env : Env) (target : PubKey) (oldSol : ℚ)
    (balanceMessage : String) : (Outcome × String) × List Effect :=
  match env.sourceBalance with
  | Except.error e =>
    (innerCatch balanceMessage env.topUpAmountSol e,
      [Effect.getBalance env.sourceWallet])
  | Except.ok srcLam =>
    let sourceBalanceInSol : ℚ := (srcLam : ℚ) / LAMPORTS_PER_SOL
    let requiredAmount : ℚ := env.topUpAmountSol + feeReserveSol
    if sourceBalanceInSol < requiredAmount then
      ((Outcome.insufficientFunds,
          balanceMessage ++ needSolMsg requiredAmount env.sourceWallet),
        [Effect.getBalance env.sourceWallet])
    else
      let balanceMessage2 := balanceMessage ++ "\nMy wallet balance: " ++ qToFixed sourceBalanceInSol 4 ++ " SOL"
      match env.transferResult with
      | Except.error e =>
        (innerCatch balanceMessage2 env.topUpAmountSol e,
          [Effect.getBalance env.sourceWallet,
            Effect.transfer target env.topUpAmountSol])
      | Except.ok sig =>
        match env.confirmResult with
        | Except.error e =>
          (innerCatch balanceMessage2 env.topUpAmountSol e,
            [Effect.getBalance env.sourceWallet,
              Effect.transfer target env.topUpAmountSol,
              Effect.confirmTransaction sig "confirmed"])
        | Except.ok _ =>
          match env.newTargetBalance with
          | Except.error e =>
            (innerCatch balanceMessage2 env.topUpAmountSol e,
              [Effect.getBalance env.sourceWallet,
                Effect.transfer target env.topUpAmountSol,
                Effect.confirmTransaction sig "confirmed",
                Effect.getBalance target])
          | Except.ok newLam =>
            let newBalanceInSol : ℚ := (newLam : ℚ) / LAMPORTS_PER_SOL
            ((Outcome.toppedUp oldSol sourceBalanceInSol newBalanceInSol,
                balanceMessage2 ++ "\nTransfer successful! ✅\nNew balance: " ++ qToFixed newBalanceInSol 4 ++ " SOL"),
              [Effect.getBalance env.sourceWallet,
                Effect.transfer target env.topUpAmountSol,
                Effect.confirmTransaction sig "confirmed",
                Effect.getBalance target])

/-- Lines 31-89, the outer `try` body: resolve the target, query its
balance, and either report health or run the top-up block.  An
`Except.error` is an exception escaping to the outer `catch`; the
effects already issued are carried alongside. -/
def callTry (env : Env) (input : String) :
    Except (JsErr × List Effect) ((Outcome × String) × List Effect) :=
  match resolveTarget env input with
  | Except.error e => Except.error (e, [])
  | Except.ok target =>
    match env.targetBalance with
    | Except.error e => Except.error (e, [Effect.getBalance target])
    | Except.ok lam =>
      let balanceInSol : ℚ := (lam : ℚ) / LAMPORTS_PER_SOL
      let balanceMessage := "Current balance: " ++ qToFixed balanceInSol 4 ++ " SOL"
      if balanceInSol < env.minBalanceSol then
        let r := topUpProtocol env target balanceInSol balanceMessage
        Except.ok (r.1, Effect.getBalance target :: r.2)
      else
        Except.ok ((Outcome.healthy, balanceMessage), [Effect.getBalance target])

/-- Lines 90-95, the outer `catch`: an `Error` whose message contains
`Invalid public key` becomes the invalid-address message; anything else
becomes the generic balance-check error message. -/
def outerCatch (e : JsErr) : Outcome × String :=
  match e with
  | JsErr.jsError msg =>
    if strContains msg "Invalid public key" then
      (Outcome.invalidInput,
        "Error: Invalid wallet address provided. Please provide a valid Solana wallet address.")
    else
      (Outcome.queryError, "Error checking balance: " ++ msg)
  | JsErr.thrown r => (Outcome.queryError, "Error checking balance: " ++ r)

/-- `_call` as its caller observes it: `Except.ok` is a normal return,
`Except.error` would be an exception propagating out of `_call`.  The
outer `catch` turns every escaping exception into a normal return, so
both branches produce `Except.ok`. -/
def mCallE (env : Env) (input : String) : Except JsErr CallResult :=
  match callTry env input with
  | Except.ok ((o, m), effs) => Except.ok ⟨o, m, effs⟩
  | Except.error (e, effs) =>
    let (o, m) := outerCatch e
    Except.ok ⟨o, m, effs⟩

/-- The value `_call` returns (total, by the outer `catch`). -/
def mCall (env : Env) (input : String) : CallResult :=
  match mCallE env input with
  | Except.ok r => r
  | Except.error _ => ⟨Outcome.queryError, "", []⟩

/-! ### The older `_call` variant (src/unnamed/part_000) -/

/-- Classification of the return site of the older `_call` variant. -/
inductive LegacyOutcome where
  | healthy
  | toppedUp
  | topUpFailed
  | invalidInput
  | queryError
deriving DecidableEq

/-- What one invocation of the older `_call` produced. -/
structure LegacyResult where
  outcome : LegacyOutcome
  message : String
  effects : List Effect
deriving DecidableEq

/-- Lines 30-61 of the older variant: resolve the target, query its
balance, transfer without any solvency pre-check or confirmation when
the balance is low, and report; same outer `catch` as the newer tool. -/
def legacyCall (env : Env) (input : String) : LegacyResult :=
  match resolveTarget env input with
  | Except.error e =>
    let (o, m) := outerCatch e
    ⟨legacyOutcomeOfOuter o, m, []⟩
  | Except.ok target =>
    match env.targetBalance with
    | Except.error e =>
      let (o, m) := outerCatch e
      ⟨legacyOutcomeOfOuter o, m, [Effect.getBalance target]⟩
    | Except.ok lam =>
      let balanceInSol : ℚ := (lam : ℚ) / LAMPORTS_PER_SOL
      if balanceInSol < env.minBalanceSol then
        match env.transferResult with
        | Except.ok _ =>
          ⟨LegacyOutcome.toppedUp,
            "Wallet " ++ target.addr ++ " balance was low (" ++ qToFixed balanceInSol 4 ++ " SOL). Successfully topped up with " ++ qRepr env.topUpAmountSol ++ " SOL.",
            [Effect.getBalance target, Effect.transfer target env.topUpAmountSol]⟩
        | Except.error e =>
          ⟨LegacyOutcome.topUpFailed,
            "Failed to top up wallet " ++ target.addr ++ ". Error: " ++ jsErrShown e,
            [Effect.getBalance target, Effect.transfer target env.topUpAmountSol]⟩
      else
        ⟨LegacyOutcome.healthy,
          "Wallet " ++ target.addr ++ " balance is " ++ qToFixed balanceInSol 4 ++ " SOL. No top-up needed.",
          [Effect.getBalance target]⟩
where
  /-- `error instanceof Error ? error.message : String(error)` -/
  jsErrShown : JsErr → String
    | JsErr.jsError msg => msg
    | JsErr.thrown r => r
  /-- map the shared outer-catch classification into the older variant's
  outcome kinds -/
  legacyOutcomeOfOuter : Outcome → LegacyOutcome
    | Outcome.invalidInput => LegacyOutcome.invalidInput
    | _ => LegacyOutcome.queryError

/-! ### The autonomous loop (src/index.ts, `runAutonomousMode`) -/

/-- The state space the spec ascribes to the loop.  The implemented loop
is `while (true)`; whether `cancelled` is reachable is settled by the
theorems below. -/
inductive LoopState where
  | running
  | cancelled
deriving DecidableEq

/-- The environment one loop cycle runs in: the oracle for the balance
tool call of line 172, and the result of the rest of the cycle body (the
agent-stream network analysis of lines 178-199, which may throw). -/
structure CycleEnv where
  callEnv : Env
  agentPhase : Except JsErr Unit

/-- One execution of the cycle body (lines 162-204 up to the delay): the
balance tool is invoked with `check` (its own handlers never throw), then
the agent phase runs; an exception there escapes to the loop's `catch`. -/
def runCycle (c : CycleEnv) : Except JsErr String :=
  match c.agentPhase with
  | Except.ok _ => Except.ok (mCall c.callEnv "check").message
  | Except.error e => Except.error e

/-- The recovery delay of line 211 (`setTimeout(..., 5000)`), in
milliseconds. -/
def recoveryDelayMs : Nat := 5000

/-- The default cadence of `runAutonomousMode(agent, config, tools,
interval = 10)`, in seconds; `main` calls it without an interval
argument. -/
def defaultIntervalSec : Nat := 10

/-- What the loop does after one cycle body finishes: a normal
completion waits `interval * 1000` ms (line 204) and loops; a caught
exception waits `recoveryDelayMs` (line 211) and `continue`s.  Both
paths re-enter the loop: no branch leaves `while (true)`. -/
def runAutonomousStep (intervalSec : Nat) (r : Except JsErr String) :
    LoopState × Nat :=
  match r with
  | Except.ok _ => (LoopState.running, intervalSec * 1000)
  | Except.error _ => (LoopState.running, recoveryDelayMs)

/-- The loop state after `n` completed cycles, given the per-cycle
environments; a terminal state, once reached, would persist. -/
def loopStateAfter (intervalSec : Nat) (cycles : Nat → CycleEnv) : Nat → LoopState
  | 0 => LoopState.running
  | n + 1 =>
    match loopStateAfter intervalSec cycles n with
    | LoopState.cancelled => LoopState.cancelled
    | LoopState.running => (runAutonomousStep intervalSec (runCycle (cycles n))).1

/-- The delay the loop waits between cycle `n` and cycle `n + 1`, in
milliseconds. -/
def cycleDelayMs (intervalSec : Nat) (cycles : Nat → CycleEnv) (n : Nat) : Nat :=
  (runAutonomousStep intervalSec (runCycle (cycles n))).2

/-- Modelled from the spec: the loop step of the two-state machine of
spec §4.4/§5, in which an externally triggered cancellation observed at
the cadence boundary moves the machine to the terminal `cancelled`
state.  The source defines no such signal; this definition exists only
to compare the spec's machine with the implemented `runAutonomousStep`. -/
def specCancellableStep (cancelRequested : Bool) (intervalSec : Nat)
    (r : Except JsErr String) : LoopState × Nat :=
  if cancelRequested then (LoopState.cancelled, 0)
  else runAutonomousStep intervalSec r

/-! ### The chat-mode transfer path (src/index.ts, `runChatMode`) -/

/-- The fixed chat-mode transfer amount of line 259
(`const transferAmount = 0.001`). -/
def chatTransferAmountSol : ℚ := 0.001

/-- The string line 261 passes to the balance tool:
`balanceMonitor._call(transfer TRANSFERAMOUNT)` interpolated. -/
def chatTransferInput : String :=
  "transfer " ++ qRepr chatTransferAmountSol

/-! ### Concrete instances used by witnesses and counterexamples -/

/-- The system-program address: a well-formed 32-byte base58 address
used as the monitored default wallet in concrete instances. -/
def wDefault : PubKey := ⟨"11111111111111111111111111111111"⟩

/-- A funding-wallet address used in concrete instances. -/
def wFunding : PubKey := ⟨"Fund1ngWa11etAddr"⟩

/-- The spec §8 scenario: threshold 0.1, target balance 0.05 SOL,
funding balance 0.1 SOL, top-up amount 0.2 SOL. -/
def envScenario : Env where
  defaultWallet := wDefault
  sourceWallet := wFunding
  minBalanceSol := 0.1
  topUpAmountSol := 0.2
  targetBalance := Except.ok 50000000
  sourceBalance := Except.ok 100000000
  transferResult := Except.ok "sig"
  confirmResult := Except.ok ()
  newTargetBalance := Except.ok 250000000

/-- A healthy instance: target balance 0.2 SOL against threshold 0.1. -/
def envHealthy : Env where
  defaultWallet := wDefault
  sourceWallet := wFunding
  minBalanceSol := 0.1
  topUpAmountSol := 0.2
  targetBalance := Except.ok 200000000
  sourceBalance := Except.ok 100000000
  transferResult := Except.ok "sig"
  confirmResult := Except.ok ()
  newTargetBalance := Except.ok 200000000

/-- A fully successful top-up instance: target 0.05 SOL, funding 1 SOL,
and a fresh post-transfer query answering 0.3 SOL (0.05 + 0.2 deposited
by the top-up plus 0.05 deposited concurrently by a third party). -/
def envToppedUp : Env where
  defaultWallet := wDefault
  sourceWallet := wFunding
  minBalanceSol := 0.1
  topUpAmountSol := 0.2
  targetBalance := Except.ok 50000000
  sourceBalance := Except.ok 1000000000
  transferResult := Except.ok "sig"
  confirmResult := Except.ok ()
  newTargetBalance := Except.ok 300000000

/-- An instance whose transfer submission succeeds and whose
confirmation step then fails with a timeout error. -/
def envConfirmErr : Env where
  defaultWallet := wDefault
  sourceWallet := wFunding
  minBalanceSol := 0.1
  topUpAmountSol := 0.2
  targetBalance := Except.ok 50000000
  sourceBalance := Except.ok 1000000000
  transferResult := Except.ok "sig"
  confirmResult := Except.error (JsErr.jsError "Transaction was not confirmed in 30.00 seconds. It is unknown if it succeeded or failed.")
  newTargetBalance := Except.ok 250000000

/-- A cycle whose body completes normally. -/
def cycleOk : CycleEnv where
  callEnv := envHealthy
  agentPhase := Except.ok ()

/-- A cycle whose agent phase throws (an injected transient failure). -/
def cycleFail : CycleEnv where
  callEnv := envHealthy
  agentPhase := Except.error (JsErr.jsError "fetch failed: network down")

/-- A cycle sequence whose first cycle throws and whose later cycles
complete normally. -/
def cyclesW : Nat → CycleEnv :=
  fun k => if k = 0 then cycleFail else cycleOk

set_option maxRecDepth 8192

/-! ### Helper lemmas -/

lemma base58Aux_invalid (x : Char) (hx : base58Val x = none) :
    ∀ (l : List Char) (acc : Nat) (r : List Char),
      base58DecodeValAux acc (l ++ x :: r) = none := by
  intro l
  induction l with
  | nil =>
    intro acc r
    simp only [List.nil_append, base58DecodeValAux, hx]
  | cons c cs ih =>
    intro acc r
    simp only [List.cons_append, base58DecodeValAux]
    cases h : base58Val c with
    | none => rfl
    | some v => exact ih _ r

lemma parse_transfer_nonbase58 (amt : String) :
    parsePublicKeyE ("transfer " ++ amt)
      = Except.error (JsErr.jsError "Non-base58 character") := by
  have hx : base58Val ' ' = none := by with_unfolding_all rfl
  have hdata : ("transfer " ++ amt).data
      = ['t', 'r', 'a', 'n', 's', 'f', 'e', 'r'] ++ ' ' :: amt.data := by
    rw [String.data_append]
    with_unfolding_all rfl
  unfold parsePublicKeyE base58DecodedLen
  rw [hdata, base58Aux_invalid ' ' hx]

lemma transfer_ne_empty (amt : String) : "transfer " ++ amt ≠ "" := by
  intro h
  have h2 := congrArg String.data h
  rw [String.data_append] at h2
  exact absurd h2 (by with_unfolding_all simp)

lemma transfer_ne_check (amt : String) : "transfer " ++ amt ≠ "check" := by
  intro h
  have h2 := congrArg String.data h
  rw [String.data_append] at h2
  exact absurd h2 (by with_unfolding_all simp)

lemma mCall_parse_error (env : Env) (s : String) (e : JsErr)
    (hne : s ≠ "") (hnc : s ≠ "check")
    (hbad : parsePublicKeyE s = Except.error e) :
    mCall env s = ⟨(outerCatch e).1, (outerCatch e).2, []⟩ := by
  unfold mCall mCallE callTry resolveTarget
  rw [if_pos (And.intro hne hnc), hbad]

lemma mCall_invalid_pubkey (env : Env) (s : String)
    (hne : s ≠ "") (hnc : s ≠ "check")
    (hbad : parsePublicKeyE s = Except.error (JsErr.jsError "Invalid public key input")) :
    mCall env s = ⟨Outcome.invalidInput,
      "Error: Invalid wallet address provided. Please provide a valid Solana wallet address.",
      []⟩ := by
  rw [mCall_parse_error env s _ hne hnc hbad]
  with_unfolding_all rfl

lemma mCall_nonbase58 (env : Env) (s : String)
    (hne : s ≠ "") (hnc : s ≠ "check")
    (hbad : parsePublicKeyE s = Except.error (JsErr.jsError "Non-base58 character")) :
    mCall env s = ⟨Outcome.queryError,
      "Error checking balance: Non-base58 character", []⟩ := by
  rw [mCall_parse_error env s _ hne hnc hbad]
  with_unfolding_all rfl

lemma loopStateAfter_eq_running (i : Nat) (cycles : Nat → CycleEnv) :
    ∀ n, loopStateAfter i cycles n = LoopState.running := by
  intro n
  induction n with
  | zero => rfl
  | succ n ih =>
    unfold loopStateAfter
    rw [ih]
    unfold runAutonomousStep
    cases runCycle (cycles n) <;> rfl

lemma strContains_build (pre mid post : String) :
    strContains (pre ++ mid ++ post) mid := by
  unfold strContains
  rw [String.data_append, String.data_append]
  exact List.infix_append _ _ _

lemma strContains_append_left (a s b : String) (h : strContains s b) :
    strContains (a ++ s) b := by
  unfold strContains at h ⊢
  rw [String.data_append]
  exact h.trans (List.suffix_append a.data s.data).isInfix

lemma strContains_append_right (s a b : String) (h : strContains s b) :
    strContains (s ++ a) b := by
  unfold strContains at h ⊢
  rw [String.data_append]
  exact h.trans (List.prefix_append s.data a.data).isInfix

lemma str_append_ne_empty (a b : String) (ha : a ≠ "") : a ++ b ≠ "" := by
  intro h
  apply ha
  have h2 := congrArg String.data h
  rw [String.data_append] at h2
  have h3 := List.append_eq_nil.mp h2
  exact String.ext h3.1

lemma lit_balance_ne (q : ℚ) :
    ("Current balance: " ++ qToFixed q 4 ++ " SOL" : String) ≠ "" :=
  str_append_ne_empty _ _ (str_append_ne_empty _ _ (by with_unfolding_all simp))

lemma innerCatch_msg_ne (bm : String) (t : ℚ) (e : JsErr) (hbm : bm ≠ "") :
    (innerCatch bm t e).2 ≠ "" := by
  unfold innerCatch
  cases e with
  | jsError msg =>
    by_cases h1 : strContains (strToLower msg) "insufficient lamports" ∨
        strContains (strToLower msg) "0x1"
    · simp only [if_pos h1]
      exact str_append_ne_empty _ _ (str_append_ne_empty _ _ (str_append_ne_empty _ _ hbm))
    · simp only [if_neg h1]
      by_cases h2 : strContains (strToLower msg) "attempt to debit"
      · simp only [if_pos h2]
        exact str_append_ne_empty _ _ hbm
      · simp only [if_neg h2]
        exact str_append_ne_empty _ _ (str_append_ne_empty _ _ (str_append_ne_empty _ _ hbm))
  | thrown r => exact str_append_ne_empty _ _ hbm

lemma topUpProtocol_msg_ne (env : Env) (target : PubKey) (oldSol : ℚ) (bm : String)
    (hbm : bm ≠ "") : (topUpProtocol env target oldSol bm).1.2 ≠ "" := by
  unfold topUpProtocol
  cases env.sourceBalance with
  | error e => exact innerCatch_msg_ne _ _ _ hbm
  | ok slam =>
    by_cases hs : (slam : ℚ) / LAMPORTS_PER_SOL < env.topUpAmountSol + feeReserveSol
    · simp only [if_pos hs]
      exact str_append_ne_empty _ _ hbm
    · simp only [if_neg hs]
      have hbm2 : bm ++ "\nMy wallet balance: "
          ++ qToFixed ((slam : ℚ) / LAMPORTS_PER_SOL) 4 ++ " SOL" ≠ "" :=
        str_append_ne_empty _ _ (str_append_ne_empty _ _ (str_append_ne_empty _ _ hbm))
      cases env.transferResult with
      | error e => exact innerCatch_msg_ne _ _ _ hbm2
      | ok sig =>
        cases env.confirmResult with
        | error e => exact innerCatch_msg_ne _ _ _ hbm2
        | ok u =>
          cases env.newTargetBalance with
          | error e => exact innerCatch_msg_ne _ _ _ hbm2
          | ok newLam =>
            exact str_append_ne_empty _ _ (str_append_ne_empty _ _ (str_append_ne_empty _ _ hbm2))

/-! ### Claim theorems -/

/-- C1: for every target balance strictly below `minBalance`, if the
funding account balance is less than `topUpAmount` plus the fee reserve
`0.000005`, the call returns the `InsufficientFunds` outcome and no
transfer is submitted to the ledger client: the only ledger calls issued
are the two balance queries, in that order, so the solvency pre-check
runs before any submission. -/
theorem claim1_precheck_blocks_submission (env : Env) (input : String)
    (target : PubKey) (lam slam : Nat)
    (hres : resolveTarget env input = Except.ok target)
    (hbal : env.targetBalance = Except.ok lam)
    (hlow : (lam : ℚ) / LAMPORTS_PER_SOL < env.minBalanceSol)
    (hsrc : env.sourceBalance = Except.ok slam)
    (hpoor : (slam : ℚ) / LAMPORTS_PER_SOL < env.topUpAmountSol + feeReserveSol) :
    (mCall env input).outcome = Outcome.insufficientFunds ∧
    (mCall env input).effects
      = [Effect.getBalance target, Effect.getBalance env.sourceWallet] ∧
    ∀ dest amt, Effect.transfer dest amt ∉ (mCall env input).effects := by
  have hcall : mCall env input = ⟨Outcome.insufficientFunds,
      ("Current balance: " ++ qToFixed ((lam : ℚ) / LAMPORTS_PER_SOL) 4 ++ " SOL")
        ++ needSolMsg (env.topUpAmountSol + feeReserveSol) env.sourceWallet,
      [Effect.getBalance target, Effect.getBalance env.sourceWallet]⟩ := by
    unfold mCall mCallE callTry topUpProtocol
    rw [hres, hbal]
    simp only [if_pos hlow]
    rw [hsrc]
    simp only [if_pos hpoor]
  refine ⟨by rw [hcall], by rw [hcall], ?_⟩
  intro dest amt
  rw [hcall]
  simp

/-- Witness for C1, at the spec §8 scenario: threshold 0.1, target
balance 0.05 SOL, funding balance 0.1 SOL, top-up amount 0.2 SOL. -/
theorem claim1_precheck_blocks_submission_witness :
    (((50000000 : Nat) : ℚ) / LAMPORTS_PER_SOL < envScenario.minBalanceSol) ∧
    (((100000000 : Nat) : ℚ) / LAMPORTS_PER_SOL
      < envScenario.topUpAmountSol + feeReserveSol) ∧
    (mCall envScenario "check").outcome = Outcome.insufficientFunds ∧
    (mCall envScenario "check").effects
      = [Effect.getBalance wDefault, Effect.getBalance wFunding] ∧
    Effect.transfer wDefault (1 / 5 : ℚ) ∉ (mCall envScenario "check").effects := by
  have h := claim1_precheck_blocks_submission envScenario "check" wDefault
    50000000 100000000 rfl rfl
    (of_decide_eq_true (by with_unfolding_all rfl)) rfl
    (of_decide_eq_true (by with_unfolding_all rfl))
  exact ⟨of_decide_eq_true (by with_unfolding_all rfl),
    of_decide_eq_true (by with_unfolding_all rfl),
    h.1, h.2.1, h.2.2 wDefault (1 / 5)⟩

/-- C3: for every target balance at least `minBalance`, the call returns
the `Healthy` outcome and its only ledger interaction is the single
balance query: no transfer call is issued.  Both the current tool and
the older variant of `src/unnamed/part_000` behave this way. -/
theorem claim3_healthy_noop (env : Env) (input : String) (target : PubKey) (lam : Nat)
    (hres : resolveTarget env input = Except.ok target)
    (hbal : env.targetBalance = Except.ok lam)
    (hge : env.minBalanceSol ≤ (lam : ℚ) / LAMPORTS_PER_SOL) :
    mCall env input = ⟨Outcome.healthy,
      "Current balance: " ++ qToFixed ((lam : ℚ) / LAMPORTS_PER_SOL) 4 ++ " SOL",
      [Effect.getBalance target]⟩ ∧
    legacyCall env input = ⟨LegacyOutcome.healthy,
      "Wallet " ++ target.addr ++ " balance is "
        ++ qToFixed ((lam : ℚ) / LAMPORTS_PER_SOL) 4 ++ " SOL. No top-up needed.",
      [Effect.getBalance target]⟩ := by
  constructor
  · unfold mCall mCallE callTry
    rw [hres, hbal]
    simp only [if_neg (not_lt.mpr hge)]
  · unfold legacyCall
    rw [hres, hbal]
    simp only [if_neg (not_lt.mpr hge)]

/-- Witness for C3: target balance 0.2 SOL against threshold 0.1. -/
theorem claim3_healthy_noop_witness :
    (envHealthy.minBalanceSol ≤ ((200000000 : Nat) : ℚ) / LAMPORTS_PER_SOL) ∧
    mCall envHealthy "check" = ⟨Outcome.healthy,
      "Current balance: 0.2000 SOL", [Effect.getBalance wDefault]⟩ ∧
    legacyCall envHealthy "check" = ⟨LegacyOutcome.healthy,
      "Wallet 11111111111111111111111111111111 balance is 0.2000 SOL. No top-up needed.",
      [Effect.getBalance wDefault]⟩ := by
  have h := claim3_healthy_noop envHealthy "check" wDefault 200000000 rfl rfl
    (of_decide_eq_true (by with_unfolding_all rfl))
  exact ⟨of_decide_eq_true (by with_unfolding_all rfl),
    h.1.trans (by with_unfolding_all rfl),
    h.2.trans (by with_unfolding_all rfl)⟩

/-- C4 counterexample, at the claim's own scenario (threshold 0.1,
target balance 0.05 SOL, funding balance 0.1 SOL, fee reserve 0.000005,
top-up amount 0.2 SOL): the pre-check `InsufficientFunds` detail string
contains the funding address and the required amount `0.200005`
(`requiredAmount.toFixed(6)` of line 55), but not the shortfall
`0.100005 = required - funding balance` the claim asserts, even though
the shortfall at this scenario is exactly 0.100005. -/
theorem claim4_required_not_shortfall_counterexample :
    (mCall envScenario "check").outcome = Outcome.insufficientFunds ∧
    strContains (mCall envScenario "check").message "Fund1ngWa11etAddr" ∧
    strContains (mCall envScenario "check").message "0.200005" ∧
    ¬ strContains (mCall envScenario "check").message "0.100005" ∧
    envScenario.topUpAmountSol + feeReserveSol
      - ((100000000 : Nat) : ℚ) / LAMPORTS_PER_SOL = 0.100005 := by
  refine ⟨?_, ?_, ?_, ?_, ?_⟩
  · with_unfolding_all rfl
  · exact of_decide_eq_true (by with_unfolding_all rfl)
  · exact of_decide_eq_true (by with_unfolding_all rfl)
  · exact of_decide_eq_true (by with_unfolding_all rfl)
  · show (0.2 : ℚ) + 0.000005 - ((100000000 : Nat) : ℚ) / 1000000000 = 0.100005
    norm_num

/-- C4 amended: whenever the solvency pre-check produces
`InsufficientFunds`, the detail string contains the funding account's
address and the required amount `topUpAmount + feeReserve` rendered to
six decimals (not the shortfall: the code never prints
`required - funding balance`). -/
theorem claim4_insufficient_message_amended (env : Env) (input : String)
    (target : PubKey) (lam slam : Nat)
    (hres : resolveTarget env input = Except.ok target)
    (hbal : env.targetBalance = Except.ok lam)
    (hlow : (lam : ℚ) / LAMPORTS_PER_SOL < env.minBalanceSol)
    (hsrc : env.sourceBalance = Except.ok slam)
    (hpoor : (slam : ℚ) / LAMPORTS_PER_SOL < env.topUpAmountSol + feeReserveSol) :
    (mCall env input).outcome = Outcome.insufficientFunds ∧
    strContains (mCall env input).message env.sourceWallet.addr ∧
    strContains (mCall env input).message
      (qToFixed (env.topUpAmountSol + feeReserveSol) 6) := by
  have hcall : mCall env input = ⟨Outcome.insufficientFunds,
      ("Current balance: " ++ qToFixed ((lam : ℚ) / LAMPORTS_PER_SOL) 4 ++ " SOL")
        ++ needSolMsg (env.topUpAmountSol + feeReserveSol) env.sourceWallet,
      [Effect.getBalance target, Effect.getBalance env.sourceWallet]⟩ := by
    unfold mCall mCallE callTry topUpProtocol
    rw [hres, hbal]
    simp only [if_pos hlow]
    rw [hsrc]
    simp only [if_pos hpoor]
  rw [hcall]
  refine ⟨rfl, ?_, ?_⟩
  · unfold needSolMsg
    exact strContains_append_left _ _ _ (strContains_build _ _ _)
  · unfold needSolMsg
    exact strContains_append_left _ _ _
      (strContains_append_right _ _ _
        (strContains_append_right _ _ _ (strContains_build _ _ _)))

/-- Witness for the amended C4 at the spec §8 scenario. -/
theorem claim4_insufficient_message_amended_witness :
    (((50000000 : Nat) : ℚ) / LAMPORTS_PER_SOL < envScenario.minBalanceSol) ∧
    (((100000000 : Nat) : ℚ) / LAMPORTS_PER_SOL
      < envScenario.topUpAmountSol + feeReserveSol) ∧
    (mCall envScenario "check").outcome = Outcome.insufficientFunds ∧
    strContains (mCall envScenario "check").message wFunding.addr ∧
    strContains (mCall envScenario "check").message
      (qToFixed (envScenario.topUpAmountSol + feeReserveSol) 6) := by
  have h := claim4_insufficient_message_amended envScenario "check" wDefault
    50000000 100000000 rfl rfl
    (of_decide_eq_true (by with_unfolding_all rfl)) rfl
    (of_decide_eq_true (by with_unfolding_all rfl))
  exact ⟨of_decide_eq_true (by with_unfolding_all rfl),
    of_decide_eq_true (by with_unfolding_all rfl), h.1, h.2.1, h.2.2⟩

/-- C5 counterexample: in a successful cycle whose funding account held
exactly 1 SOL at the solvency check, the `ToppedUp` outcome carries
funding balance 1 SOL — the value read by the pre-transfer solvency
query.  The effect trace shows the funding wallet is never queried again
after the transfer, and after a confirmed 0.2 SOL debit the remaining
funding balance cannot still be 1 SOL, so the carried value is the
pre-transfer reading, not the remaining balance the claim asserts.  The
carried new target balance 0.3 SOL is the fresh post-transfer query
result and differs from `old + topUpAmount = 0.25`. -/
theorem claim5_stale_funding_balance_counterexample :
    (mCall envToppedUp "check").outcome
      = Outcome.toppedUp (1 / 20 : ℚ) 1 (3 / 10) ∧
    ((3 : ℚ) / 10 ≠ 1 / 20 + envToppedUp.topUpAmountSol) ∧
    (mCall envToppedUp "check").effects
      = [Effect.getBalance wDefault, Effect.getBalance wFunding,
          Effect.transfer wDefault (1 / 5 : ℚ),
          Effect.confirmTransaction "sig" "confirmed",
          Effect.getBalance wDefault] ∧
    ((1 : ℚ) ≠ 1 - envToppedUp.topUpAmountSol) ∧
    Effect.getBalance wFunding
      ∉ [Effect.transfer wDefault (1 / 5 : ℚ),
          Effect.confirmTransaction "sig" "confirmed",
          Effect.getBalance wDefault] := by
  refine ⟨?_, ?_, ?_, ?_, ?_⟩
  · with_unfolding_all rfl
  · show (3 : ℚ) / 10 ≠ 1 / 20 + (0.2 : ℚ)
    norm_num
  · with_unfolding_all rfl
  · show (1 : ℚ) ≠ 1 - (0.2 : ℚ)
    norm_num
  · exact of_decide_eq_true (by with_unfolding_all rfl)

/-- C5 amended: after a successful submit-and-confirm sequence, the
`ToppedUp` outcome carries the old balance, the post-transfer target
balance taken from the fresh re-query (whatever value that query
returns, not `old + topUpAmount`), and the funding account's balance as
read by the pre-transfer solvency check; the effect trace re-queries the
target after the transfer and never re-queries the funding wallet. -/
theorem claim5_topped_up_amended (env : Env) (input : String) (target : PubKey)
    (lam slam newLam : Nat) (sig : String)
    (hres : resolveTarget env input = Except.ok target)
    (hbal : env.targetBalance = Except.ok lam)
    (hlow : (lam : ℚ) / LAMPORTS_PER_SOL < env.minBalanceSol)
    (hsrc : env.sourceBalance = Except.ok slam)
    (hrich : ¬ (slam : ℚ) / LAMPORTS_PER_SOL < env.topUpAmountSol + feeReserveSol)
    (htr : env.transferResult = Except.ok sig)
    (hcf : env.confirmResult = Except.ok ())
    (hnew : env.newTargetBalance = Except.ok newLam) :
    mCall env input = ⟨
      Outcome.toppedUp ((lam : ℚ) / LAMPORTS_PER_SOL)
        ((slam : ℚ) / LAMPORTS_PER_SOL) ((newLam : ℚ) / LAMPORTS_PER_SOL),
      ("Current balance: " ++ qToFixed ((lam : ℚ) / LAMPORTS_PER_SOL) 4 ++ " SOL")
        ++ "\nMy wallet balance: " ++ qToFixed ((slam : ℚ) / LAMPORTS_PER_SOL) 4 ++ " SOL"
        ++ "\nTransfer successful! ✅\nNew balance: "
        ++ qToFixed ((newLam : ℚ) / LAMPORTS_PER_SOL) 4 ++ " SOL",
      [Effect.getBalance target, Effect.getBalance env.sourceWallet,
        Effect.transfer target env.topUpAmountSol,
        Effect.confirmTransaction sig "confirmed",
        Effect.getBalance target]⟩ := by
  unfold mCall mCallE callTry topUpProtocol
  rw [hres, hbal]
  simp only [if_pos hlow]
  rw [hsrc]
  simp only [if_neg hrich]
  rw [htr, hcf, hnew]

/-- Witness for the amended C5 at the successful top-up instance. -/
theorem claim5_topped_up_amended_witness :
    (((50000000 : Nat) : ℚ) / LAMPORTS_PER_SOL < envToppedUp.minBalanceSol) ∧
    (¬ ((1000000000 : Nat) : ℚ) / LAMPORTS_PER_SOL
      < envToppedUp.topUpAmountSol + feeReserveSol) ∧
    mCall envToppedUp "check" = ⟨
      Outcome.toppedUp (1 / 20 : ℚ) 1 (3 / 10),
      "Current balance: 0.0500 SOL\nMy wallet balance: 1.0000 SOL\nTransfer successful! ✅\nNew balance: 0.3000 SOL",
      [Effect.getBalance wDefault, Effect.getBalance wFunding,
        Effect.transfer wDefault (1 / 5 : ℚ),
        Effect.confirmTransaction "sig" "confirmed",
        Effect.getBalance wDefault]⟩ := by
  have h := claim5_topped_up_amended envToppedUp "check" wDefault
    50000000 1000000000 300000000 "sig" rfl rfl
    (of_decide_eq_true (by with_unfolding_all rfl)) rfl
    (of_decide_eq_false (by with_unfolding_all rfl)) rfl rfl rfl
  exact ⟨of_decide_eq_true (by with_unfolding_all rfl),
    of_decide_eq_false (by with_unfolding_all rfl),
    h.trans (by with_unfolding_all rfl)⟩

/-- C2 counterexample: a concrete call whose transfer submission
succeeds and whose confirmation step then fails with a timeout error
returns the generic transfer-failure message (the `TransferFailed`
outcome of the shared inner catch), not a distinct `ConfirmationUnknown`
outcome: the code classifies confirmation errors exactly like submission
errors. -/
theorem claim2_confirm_error_counterexample :
    envConfirmErr.transferResult = Except.ok "sig" ∧
    envConfirmErr.confirmResult = Except.error (JsErr.jsError
      "Transaction was not confirmed in 30.00 seconds. It is unknown if it succeeded or failed.") ∧
    (mCall envConfirmErr "check").outcome = Outcome.transferFailed ∧
    (mCall envConfirmErr "check").outcome ≠ Outcome.confirmationUnknown ∧
    strContains (mCall envConfirmErr "check").message "Transfer failed: " := by
  refine ⟨rfl, rfl, ?_, ?_, ?_⟩
  · with_unfolding_all rfl
  · exact of_decide_eq_true (by with_unfolding_all rfl)
  · exact of_decide_eq_true (by with_unfolding_all rfl)

/-- C2 amended: when the transfer submission succeeds and the
confirmation step errors with a message that matches none of the known
failure substrings, the call returns the `TransferFailed` outcome (the
generic `Transfer failed:` message of the shared inner catch); the code
defines no `ConfirmationUnknown` outcome, so a confirmation error is
classified exactly like a submission error rather than being kept
distinct. -/
theorem claim2_confirm_error_amended (env : Env) (input : String) (target : PubKey)
    (lam slam : Nat) (sig m : String)
    (hres : resolveTarget env input = Except.ok target)
    (hbal : env.targetBalance = Except.ok lam)
    (hlow : (lam : ℚ) / LAMPORTS_PER_SOL < env.minBalanceSol)
    (hsrc : env.sourceBalance = Except.ok slam)
    (hrich : ¬ (slam : ℚ) / LAMPORTS_PER_SOL < env.topUpAmountSol + feeReserveSol)
    (htr : env.transferResult = Except.ok sig)
    (hcf : env.confirmResult = Except.error (JsErr.jsError m))
    (hm1 : ¬ strContains (strToLower m) "insufficient lamports")
    (hm2 : ¬ strContains (strToLower m) "0x1")
    (hm3 : ¬ strContains (strToLower m) "attempt to debit") :
    (mCall env input).outcome = Outcome.transferFailed ∧
    (mCall env input).outcome ≠ Outcome.confirmationUnknown := by
  have hor : ¬ (strContains (strToLower m) "insufficient lamports" ∨
      strContains (strToLower m) "0x1") := by
    intro h
    exact Or.elim h hm1 hm2
  have hcall : (mCall env input).outcome = Outcome.transferFailed := by
    unfold mCall mCallE callTry topUpProtocol
    rw [hres, hbal]
    simp only [if_pos hlow]
    rw [hsrc]
    simp only [if_neg hrich]
    rw [htr, hcf]
    unfold innerCatch
    simp only [if_neg hor, if_neg hm3]
  refine ⟨hcall, ?_⟩
  rw [hcall]
  intro h
  cases h

/-- Witness for the amended C2 at the confirmation-timeout instance. -/
theorem claim2_confirm_error_amended_witness :
    envConfirmErr.transferResult = Except.ok "sig" ∧
    (¬ strContains (strToLower
      "Transaction was not confirmed in 30.00 seconds. It is unknown if it succeeded or failed.")
      "insufficient lamports") ∧
    (mCall envConfirmErr "check").outcome = Outcome.transferFailed ∧
    (mCall envConfirmErr "check").outcome ≠ Outcome.confirmationUnknown := by
  have h := claim2_confirm_error_amended envConfirmErr "check" wDefault
    50000000 1000000000 "sig"
    "Transaction was not confirmed in 30.00 seconds. It is unknown if it succeeded or failed."
    rfl rfl (of_decide_eq_true (by with_unfolding_all rfl)) rfl
    (of_decide_eq_false (by with_unfolding_all rfl)) rfl rfl
    (of_decide_eq_false (by with_unfolding_all rfl))
    (of_decide_eq_false (by with_unfolding_all rfl))
    (of_decide_eq_false (by with_unfolding_all rfl))
  exact ⟨rfl, of_decide_eq_false (by with_unfolding_all rfl), h.1, h.2⟩

/-- C6 counterexample: the input `not-an-address` is non-empty, is not
the sentinel, and does not parse as an address — `bs58.decode` throws
`Non-base58 character` on the hyphen — yet the call does not return the
`InvalidInput` outcome: the outer catch maps only messages containing
`Invalid public key` to the invalid-address reply, so this input gets
the generic `Error checking balance: Non-base58 character` reply.  No
ledger call is issued (the effect list is empty). -/
theorem claim6_nonbase58_counterexample :
    ("not-an-address" ≠ "") ∧ ("not-an-address" ≠ "check") ∧
    parsePublicKeyE "not-an-address"
      = Except.error (JsErr.jsError "Non-base58 character") ∧
    (mCall envHealthy "not-an-address").outcome ≠ Outcome.invalidInput ∧
    (mCall envHealthy "not-an-address").message
      = "Error checking balance: Non-base58 character" ∧
    (mCall envHealthy "not-an-address").effects = [] := by
  refine ⟨?_, ?_, by with_unfolding_all rfl, ?_, ?_, ?_⟩
  · exact of_decide_eq_true (by with_unfolding_all rfl)
  · exact of_decide_eq_true (by with_unfolding_all rfl)
  · exact of_decide_eq_true (by with_unfolding_all rfl)
  · with_unfolding_all rfl
  · with_unfolding_all rfl

/-- C6 amended: the empty string and the sentinel `check` resolve to the
preconfigured default wallet, and every other string that does not parse
as a well-formed address is rejected before any ledger query — the
effect list is empty — but the returned outcome depends on the failure
mode: a string that is valid base58 yet does not decode to 32 bytes
throws `Invalid public key input` and yields the `InvalidInput` reply,
while a string containing a character outside the base58 alphabet throws
`Non-base58 character`, which the outer catch does not recognise as an
address error, yielding the generic `Error checking balance:` reply
instead. -/
theorem claim6_input_validation_amended (env : Env) (s t : String)
    (hne : s ≠ "") (hnc : s ≠ "check")
    (hlen : parsePublicKeyE s
      = Except.error (JsErr.jsError "Invalid public key input"))
    (htne : t ≠ "") (htnc : t ≠ "check")
    (hchar : parsePublicKeyE t
      = Except.error (JsErr.jsError "Non-base58 character")) :
    resolveTarget env "" = Except.ok env.defaultWallet ∧
    resolveTarget env "check" = Except.ok env.defaultWallet ∧
    mCall env s = ⟨Outcome.invalidInput,
      "Error: Invalid wallet address provided. Please provide a valid Solana wallet address.",
      []⟩ ∧
    mCall env t = ⟨Outcome.queryError,
      "Error checking balance: Non-base58 character", []⟩ :=
  ⟨by with_unfolding_all rfl, by with_unfolding_all rfl,
    mCall_invalid_pubkey env s hne hnc hlen,
    mCall_nonbase58 env t htne htnc hchar⟩

/-- Witness for the amended C6: `abc` is valid base58 but decodes to 3
bytes (`Invalid public key input` → invalid-address reply), while
`not-an-address` contains non-base58 characters (`Non-base58 character`
→ generic reply). -/
theorem claim6_input_validation_amended_witness :
    ("abc" ≠ "") ∧ ("abc" ≠ "check") ∧
    parsePublicKeyE "abc"
      = Except.error (JsErr.jsError "Invalid public key input") ∧
    ("not-an-address" ≠ "") ∧ ("not-an-address" ≠ "check") ∧
    parsePublicKeyE "not-an-address"
      = Except.error (JsErr.jsError "Non-base58 character") ∧
    resolveTarget envHealthy "" = Except.ok wDefault ∧
    resolveTarget envHealthy "check" = Except.ok wDefault ∧
    mCall envHealthy "abc" = ⟨Outcome.invalidInput,
      "Error: Invalid wallet address provided. Please provide a valid Solana wallet address.",
      []⟩ ∧
    mCall envHealthy "not-an-address" = ⟨Outcome.queryError,
      "Error checking balance: Non-base58 character", []⟩ := by
  have h := claim6_input_validation_amended envHealthy "abc" "not-an-address"
    (of_decide_eq_true (by with_unfolding_all rfl))
    (of_decide_eq_true (by with_unfolding_all rfl))
    (by with_unfolding_all rfl)
    (of_decide_eq_true (by with_unfolding_all rfl))
    (of_decide_eq_true (by with_unfolding_all rfl))
    (by with_unfolding_all rfl)
  exact ⟨of_decide_eq_true (by with_unfolding_all rfl),
    of_decide_eq_true (by with_unfolding_all rfl),
    by with_unfolding_all rfl,
    of_decide_eq_true (by with_unfolding_all rfl),
    of_decide_eq_true (by with_unfolding_all rfl),
    by with_unfolding_all rfl, h.1, h.2.1, h.2.2.1, h.2.2.2⟩

/-- C7: every invocation of `_call` is observed by its caller as a
normal return (`Except.ok`) carrying a non-empty status string: the
nested try/catch structure converts every classified outcome and every
escaping error into a returned message, never a raised fault, and the
entry point contains no process-exit call (no such effect exists in its
effect vocabulary). -/
theorem claim7_no_fault_escapes (env : Env) (input : String) :
    ∃ r : CallResult, mCallE env input = Except.ok r ∧ mCall env input = r ∧
      r.message ≠ "" := by
  unfold mCall mCallE callTry
  cases hres : resolveTarget env input with
  | error e =>
    refine ⟨⟨(outerCatch e).1, (outerCatch e).2, []⟩, rfl, rfl, ?_⟩
    unfold outerCatch
    cases e with
    | jsError msg =>
      by_cases h : strContains msg "Invalid public key"
      · simp only [if_pos h]
        with_unfolding_all simp
      · simp only [if_neg h]
        exact str_append_ne_empty _ _ (by with_unfolding_all simp)
    | thrown r => exact str_append_ne_empty _ _ (by with_unfolding_all simp)
  | ok target =>
    cases hbal : env.targetBalance with
    | error e =>
      refine ⟨⟨(outerCatch e).1, (outerCatch e).2, [Effect.getBalance target]⟩, rfl, rfl, ?_⟩
      unfold outerCatch
      cases e with
      | jsError msg =>
        by_cases h : strContains msg "Invalid public key"
        · simp only [if_pos h]
          with_unfolding_all simp
        · simp only [if_neg h]
          exact str_append_ne_empty _ _ (by with_unfolding_all simp)
      | thrown r => exact str_append_ne_empty _ _ (by with_unfolding_all simp)
    | ok lam =>
      by_cases hlow : (lam : ℚ) / LAMPORTS_PER_SOL < env.minBalanceSol
      · simp only [if_pos hlow]
        refine ⟨_, rfl, rfl, ?_⟩
        exact topUpProtocol_msg_ne _ _ _ _ (lit_balance_ne _)
      · simp only [if_neg hlow]
        exact ⟨_, rfl, rfl, lit_balance_ne _⟩

/-- C8: if the body of cycle `n` throws, the loop does not terminate: it
re-enters `running`, waits the fixed 5000 ms recovery delay — strictly
shorter than the default 10-second cadence — and processes cycle `n + 1`
exactly according to cycle `n + 1`'s own environment (any sequence
agreeing at `n + 1` is processed identically there, so the outcome is
independent of cycle `n`'s failure); a normally completed cycle instead
waits the full cadence delay and also re-enters `running`. -/
theorem claim8_loop_recovery (cycles g : Nat → CycleEnv) (n : Nat) (e : JsErr)
    (hfail : runCycle (cycles n) = Except.error e)
    (hagree : cycles (n + 1) = g (n + 1)) :
    loopStateAfter defaultIntervalSec cycles (n + 1) = LoopState.running ∧
    cycleDelayMs defaultIntervalSec cycles n = recoveryDelayMs ∧
    recoveryDelayMs < defaultIntervalSec * 1000 ∧
    runAutonomousStep defaultIntervalSec (runCycle (cycles (n + 1)))
      = runAutonomousStep defaultIntervalSec (runCycle (g (n + 1))) ∧
    ∀ (m : Nat) (s : String), runCycle (cycles m) = Except.ok s →
      cycleDelayMs defaultIntervalSec cycles m = defaultIntervalSec * 1000 ∧
      loopStateAfter defaultIntervalSec cycles (m + 1) = LoopState.running := by
  refine ⟨loopStateAfter_eq_running _ _ _, ?_,
    by norm_num [recoveryDelayMs, defaultIntervalSec], by rw [hagree], ?_⟩
  · unfold cycleDelayMs runAutonomousStep
    rw [hfail]
  · intro m s hm
    refine ⟨?_, loopStateAfter_eq_running _ _ _⟩
    unfold cycleDelayMs runAutonomousStep
    rw [hm]

/-- Witness for C8: cycle 0 throws an injected transient failure, cycle
1 completes normally. -/
theorem claim8_loop_recovery_witness :
    runCycle (cyclesW 0) = Except.error (JsErr.jsError "fetch failed: network down") ∧
    loopStateAfter defaultIntervalSec cyclesW 1 = LoopState.running ∧
    cycleDelayMs defaultIntervalSec cyclesW 0 = recoveryDelayMs ∧
    recoveryDelayMs < defaultIntervalSec * 1000 ∧
    cycleDelayMs defaultIntervalSec cyclesW 1 = defaultIntervalSec * 1000 := by
  have h := claim8_loop_recovery cyclesW cyclesW 0
    (JsErr.jsError "fetch failed: network down")
    (by with_unfolding_all rfl) rfl
  refine ⟨by with_unfolding_all rfl, h.1, h.2.1, h.2.2.1, ?_⟩
  exact (h.2.2.2.2 1 "Current balance: 0.2000 SOL" (by with_unfolding_all rfl)).1

/-- C9 counterexample: the two-state machine the claim describes would
move to the terminal `cancelled` state when a cancellation is requested
at a cadence boundary, but the implemented step of `runAutonomousMode`
is `while (true)` with no cancellation input: at the same boundary it is
still `running` after a normal cycle, after a thrown cycle, and after
any number of cycles, so no operator cancellation path exists and the
`cancelled` state is unreachable in the implementation. -/
theorem claim9_no_cancellation_counterexample :
    (specCancellableStep true defaultIntervalSec (Except.ok "")).1 = LoopState.cancelled ∧
    (runAutonomousStep defaultIntervalSec (Except.ok "")).1 = LoopState.running ∧
    (runAutonomousStep defaultIntervalSec
      (Except.error (JsErr.jsError "interrupt"))).1 = LoopState.running ∧
    loopStateAfter defaultIntervalSec cyclesW 3 = LoopState.running := by
  exact ⟨rfl, rfl, rfl, by with_unfolding_all rfl⟩

/-- C9 amended: the implemented autonomous loop has a single reachable
state: whatever each cycle's environment produces (normal completion or
a thrown error), the state after any number of cycles is `running`, and
every step re-enters `running`; the source provides no cancellation
signal and no terminal state is reachable through any code path. -/
theorem claim9_single_state_amended (intervalSec : Nat)
    (cycles : Nat → CycleEnv) (n : Nat) :
    loopStateAfter intervalSec cycles n = LoopState.running ∧
    (runAutonomousStep intervalSec (runCycle (cycles n))).1 = LoopState.running := by
  refine ⟨loopStateAfter_eq_running _ _ _, ?_⟩
  unfold runAutonomousStep
  cases runCycle (cycles n) <;> rfl

/-- C10 counterexample: the chat-mode driver's transfer string
`transfer 0.001` contains non-base58 characters (the space among them),
so `bs58.decode` throws `Non-base58 character` and the call returns the
generic `Error checking balance: Non-base58 character` message — not the
`InvalidInput` error message the claim asserts.  No ledger call is
issued. -/
theorem claim10_nonbase58_counterexample :
    chatTransferInput = "transfer 0.001" ∧
    parsePublicKeyE chatTransferInput
      = Except.error (JsErr.jsError "Non-base58 character") ∧
    (mCall envHealthy chatTransferInput).outcome ≠ Outcome.invalidInput ∧
    (mCall envHealthy chatTransferInput).message
      = "Error checking balance: Non-base58 character" ∧
    (mCall envHealthy chatTransferInput).effects = [] := by
  refine ⟨by with_unfolding_all rfl, by with_unfolding_all rfl, ?_, ?_, ?_⟩
  · exact of_decide_eq_true (by with_unfolding_all rfl)
  · with_unfolding_all rfl
  · with_unfolding_all rfl

/-- C10 amended: the string the chat-mode driver passes to the tool on a
transfer request, `transfer 0.001` (and more generally any string of the
form `transfer <amount>`), is non-empty, is not the `check` sentinel,
and fails to parse as an address — `bs58.decode` throws `Non-base58
character` on the space — so the call returns the generic
`Error checking balance: Non-base58 character` message (not the
invalid-address reply, which the outer catch reserves for messages
containing `Invalid public key`) with an empty effect list: no ledger
call, and in particular no transfer, is ever issued through the
chat-mode transfer path. -/
theorem claim10_chat_transfer_amended (env : Env) (amt : String) :
    chatTransferInput ≠ "" ∧ chatTransferInput ≠ "check" ∧
    parsePublicKeyE chatTransferInput
      = Except.error (JsErr.jsError "Non-base58 character") ∧
    mCall env chatTransferInput = ⟨Outcome.queryError,
      "Error checking balance: Non-base58 character", []⟩ ∧
    ("transfer " ++ amt ≠ "" ∧ "transfer " ++ amt ≠ "check" ∧
      parsePublicKeyE ("transfer " ++ amt)
        = Except.error (JsErr.jsError "Non-base58 character") ∧
      mCall env ("transfer " ++ amt) = ⟨Outcome.queryError,
        "Error checking balance: Non-base58 character", []⟩) := by
  have h1 : chatTransferInput = "transfer " ++ "0.001" := by with_unfolding_all rfl
  refine ⟨?_, ?_, ?_, ?_, transfer_ne_empty amt, transfer_ne_check amt,
    parse_transfer_nonbase58 amt,
    mCall_nonbase58 env _ (transfer_ne_empty amt) (transfer_ne_check amt)
      (parse_transfer_nonbase58 amt)⟩
  · rw [h1]
    exact transfer_ne_empty _
  · rw [h1]
    exact transfer_ne_check _
  · rw [h1]
    exact parse_transfer_nonbase58 _
  · rw [h1]
    exact mCall_nonbase58 env _ (transfer_ne_empty _) (transfer_ne_check _)
      (parse_transfer_nonbase58 _)
